import Mathlib

/-!
Verification of `src/client/www/wasm_server.py` (voidloop-quest).

The script is a thin wrapper over the CPython 3.11 standard library:
`http.server.SimpleHTTPRequestHandler` subclassed to inject two
cross-origin isolation headers in `end_headers`, `mimetypes.add_type`
for `.wasm`, and a `socketserver.TCPServer` accept loop.  The shallow
embedding below translates the script together with the standard-library
code it executes (`http/server.py`, `mimetypes.py`, `posixpath.py`,
`socketserver.py`, CPython `int()` parsing) into executable Lean
definitions, and proves the specification's claims about them.
-/

namespace WasmServer

/-! ### CPython `int(str)` parsing (base 10)

`port = int(sys.argv[1]) if len(sys.argv) > 1 else 8000`
(wasm_server.py line 23).  CPython's `int` constructor on a string
strips surrounding whitespace, accepts one optional `+`/`-` sign, and
then decimal digits with single underscores allowed only between
digits.  (CPython also strips some non-ASCII space characters and
accepts non-ASCII decimal digits; the ASCII fragment modelled here is
what the claims exercise.) -/

def isPySpace (c : Char) : Bool :=
  c = ' ' || c = '\t' || c = '\n' || c = '\r' || c = '\x0b' || c = '\x0c'

def pyStrip (s : List Char) : List Char :=
  ((s.dropWhile isPySpace).reverse.dropWhile isPySpace).reverse

def digitVal? (c : Char) : Option Nat :=
  if c.isDigit then some (c.toNat - 48) else none

/-- Digit run with single underscores between digits; the Boolean
records whether the previous character was a digit (an underscore is
legal only right after a digit, and the run may not end on one). -/
def digitsCore : List Char → Nat → Bool → Option Nat
  | [], acc, true => some acc
  | [], _, false => none
  | c :: cs, acc, prevDigit =>
    if c = '_' then
      if prevDigit then digitsCore cs acc false else none
    else
      match digitVal? c with
      | some d => digitsCore cs (acc * 10 + d) true
      | none => none

/-- `int(s)` for base 10: `some n` when CPython returns `n`, `none`
when CPython raises `ValueError`. -/
def pyInt? (s : String) : Option Int :=
  match pyStrip s.data with
  | '+' :: ds => (digitsCore ds 0 false).map Int.ofNat
  | '-' :: ds => (digitsCore ds 0 false).map (fun n => -(n : Int))
  | ds => (digitsCore ds 0 false).map Int.ofNat

/-! ### Startup: argv parsing and socket bind -/

inductive PyExn where
  | valueError (msg : String)
  | overflowError (msg : String)
  | osError (msg : String)
deriving DecidableEq

def excMessage : PyExn → String
  | .valueError m => "ValueError: " ++ m
  | .overflowError m => "OverflowError: " ++ m
  | .osError m => "OSError: " ++ m

/-- `port = int(sys.argv[1]) if len(sys.argv) > 1 else 8000` -/
def parsePort : List String → Except PyExn Int
  | _ :: a1 :: _ =>
    match pyInt? a1 with
    | some n => .ok n
    | none => .error (.valueError ("invalid literal for int() with base 10: " ++ a1))
  | _ => .ok 8000

/-- Environment for `socket.bind`: which TCP ports are already bound. -/
structure NetEnv where
  portsInUse : List Int
deriving DecidableEq

/-- `TCPServer(("", port), WASMHandler)` binds the listening socket.
CPython raises `OverflowError` for a port outside 0..65535 and
`OSError` (EADDRINUSE) for a port already in use; either exception
propagates out of the `TCPServer` constructor. -/
def socketBind (env : NetEnv) (port : Int) : Except PyExn Unit :=
  if port < 0 || 65535 < port then
    .error (.overflowError "bind(): port must be 0-65535.")
  else if port ∈ env.portsInUse then
    .error (.osError "[Errno 98] Address already in use")
  else .ok ()

deriving instance DecidableEq for Except

inductive StartupResult where
  | exited (code : Nat) (message : String)
  | serving (port : Int)
deriving DecidableEq

/-- The `__main__` block up to `serve_forever`: an exception raised by
`int(...)` or by the `TCPServer` constructor is uncaught, so CPython
prints its traceback and terminates the process with exit status 1. -/
def startup (env : NetEnv) (argv : List String) : StartupResult :=
  match parsePort argv with
  | .error e => .exited 1 (excMessage e)
  | .ok port =>
    match socketBind env port with
    | .error e => .exited 1 (excMessage e)
    | .ok () => .serving port

/-! ### posixpath primitives

`SimpleHTTPRequestHandler.translate_path` uses `posixpath.normpath`,
`os.path.dirname`, `os.path.join` and (via `guess_type`)
`posixpath.splitext`; on the posix platform `os.path` is `posixpath`.
Python's `str.startswith` / `str.endswith` are modelled on the
character lists underlying Lean strings. -/

/-- `s.lower()` at code-point level (ASCII case mapping; the claims
only exercise ASCII names). -/
def pyLower (s : String) : String := String.mk (s.data.map Char.toLower)

/-- `str.split(sep)` for a one-character separator, on the character
list (structurally recursive, unlike `String.splitOn`). -/
def splitOnChar (sep : Char) : List Char → List (List Char)
  | [] => [[]]
  | c :: cs =>
    match splitOnChar sep cs with
    | [] => [[]]
    | w :: ws => if c = sep then [] :: w :: ws else (c :: w) :: ws

/-- `s.startswith(pre)`. -/
def pyStartsWith (s pre : String) : Bool := pre.data.isPrefixOf s.data

/-- `s.endswith(post)`. -/
def pyEndsWith (s post : String) : Bool := post.data.isSuffixOf s.data

/-- `posixpath.normpath`: collapse `//`, drop `.` components, resolve
`..` against preceding components (keeping leading `..` when relative,
dropping them at an absolute root), preserve a leading `//` exactly. -/
def posix_normpath (path : String) : String :=
  if path = "" then "." else
  let initialSlashes : Nat :=
    if pyStartsWith path "/" then
      if pyStartsWith path "//" && !pyStartsWith path "///" then 2 else 1
    else 0
  let comps := (splitOnChar '/' path.data).map String.mk
  let newComps := comps.foldl
    (fun acc comp =>
      if comp = "" || comp = "." then acc
      else if comp ≠ ".." || (initialSlashes = 0 && acc = []) ||
              (acc ≠ [] && acc.getLast? = some "..") then
        acc ++ [comp]
      else if acc ≠ [] then acc.dropLast
      else acc)
    []
  let joined := String.mk (List.replicate initialSlashes '/') ++
    String.intercalate "/" newComps
  if joined = "" then "." else joined

/-- `p[:i]` where `i = p.rfind('/') + 1`: the head of
`posixpath.dirname`, everything up to and including the final slash. -/
def dirnameHead (l : List Char) : List Char :=
  ((l.reverse).dropWhile (fun c => c ≠ '/')).reverse

/-- `posixpath.dirname`: everything up to the final `/`, with trailing
slashes stripped unless the head is all slashes. -/
def posix_dirname (p : String) : String :=
  if dirnameHead p.data ≠ [] ∧ (dirnameHead p.data).any (fun c => c ≠ '/') then
    String.mk (((dirnameHead p.data).reverse.dropWhile (fun c => c = '/')).reverse)
  else String.mk (dirnameHead p.data)

/-- Two-argument `posixpath.join`. -/
def posix_join (a b : String) : String :=
  if pyStartsWith b "/" then b
  else if a = "" || pyEndsWith a "/" then a ++ b
  else a ++ "/" ++ b

/-- Index of the last occurrence of `c` in `l`, if any. -/
def rfindAux (c : Char) : List Char → Option Nat
  | [] => none
  | x :: xs =>
    match rfindAux c xs with
    | some j => some (j + 1)
    | none => if x = c then some 0 else none

/-- `posixpath.splitext`: split off the extension at the last dot of
the final component, unless the component's base is empty or all dots
(so `.bashrc` has no extension). -/
def splitext (p : String) : String × String :=
  let l := p.data
  let sepIndex : Int := match rfindAux '/' l with | some i => (i : Int) | none => -1
  let dotIndex : Int := match rfindAux '.' l with | some i => (i : Int) | none => -1
  if sepIndex < dotIndex then
    let baseName := (l.drop (sepIndex + 1).toNat).take (dotIndex - sepIndex - 1).toNat
    if baseName.any (fun c => c ≠ '.') then
      (String.mk (l.take dotIndex.toNat), String.mk (l.drop dotIndex.toNat))
    else (p, "")
  else (p, "")

/-! ### urllib helpers used by the handler -/

def hexVal? (c : Char) : Option Nat :=
  if c.isDigit then some (c.toNat - 48)
  else
    if 'a' ≤ c.toLower ∧ c.toLower ≤ 'f' then some (c.toLower.toNat - 87)
    else none

/-- `urllib.parse.unquote(path, errors="surrogatepass")`, modelled at
code-point level: `%XX` hex pairs decode to the character with that
code, other text passes through.  (CPython decodes the percent-decoded
byte string as UTF-8; recombination of multi-byte sequences is not
modelled — the claims only exercise ASCII paths, and the traversal
theorem quantifies over every decoded string.) -/
def unquoteChars : List Char → List Char
  | [] => []
  | '%' :: a :: b :: rest =>
    match hexVal? a, hexVal? b with
    | some ha, some hb => Char.ofNat (ha * 16 + hb) :: unquoteChars rest
    | _, _ => '%' :: unquoteChars (a :: b :: rest)
  | c :: rest => c :: unquoteChars rest

/-- `str.rstrip()` with no argument: strip trailing whitespace. -/
def pyRstrip (s : String) : String :=
  String.mk ((s.data.reverse.dropWhile isPySpace).reverse)

/-- The `path` component of `urllib.parse.urlsplit` applied to a
request target: the part before the first `?` or `#`.  (`parse_request`
has already collapsed a leading `//`, so no netloc is parsed.) -/
def urlsplitPath (p : String) : String :=
  String.mk (p.data.takeWhile (fun c => c ≠ '?' && c ≠ '#'))

/-! ### `SimpleHTTPRequestHandler.translate_path` -/

/-- `path.split('?',1)[0]` then `path.split('#',1)[0]`: discard query
parameters and fragment. -/
def stripQueryFrag (p : String) : String :=
  String.mk ((p.data.takeWhile (fun c => c ≠ '?')).takeWhile (fun c => c ≠ '#'))

/-- The loop of `translate_path`: `words = path.split('/')`,
`words = filter(None, words)`, then for each word skip it when
`os.path.dirname(word)` is nonempty or the word is `os.curdir` or
`os.pardir`, else `path = os.path.join(path, word)`.  The `filter` and
the `for` are fused into one recursion. -/
def joinWords (p : String) : List String → String
  | [] => p
  | w :: ws =>
    if w = "" then joinWords p ws
    else if posix_dirname w ≠ "" || w = "." || w = ".." then joinWords p ws
    else joinWords (posix_join p w) ws

/-- The normalized word list fed to the join loop. -/
def translateWords (urlPath : String) : List String :=
  (splitOnChar '/'
    (posix_normpath (String.mk (unquoteChars (stripQueryFrag urlPath).data))).data).map
    String.mk

/-- `translate_path(self, path)` with `self.directory = directory`:
discard query and fragment, remember an explicit trailing slash,
percent-decode, normalize, join the surviving components onto the root
directory, and restore the trailing slash. -/
def translate_path (directory : String) (urlPath : String) : String :=
  if pyEndsWith (pyRstrip (stripQueryFrag urlPath)) "/" then
    joinWords directory (translateWords urlPath) ++ "/"
  else
    joinWords directory (translateWords urlPath)

/-! ### Confinement of resolved paths -/

/-- A plain file or directory name: nonempty, containing no slash
(equivalently `posixpath.dirname` of it is empty), and neither `.` nor
`..`.  These are exactly the components `translate_path` is willing to
append below the root. -/
def simpleComponent (w : String) : Prop :=
  w ≠ "" ∧ posix_dirname w = "" ∧ w ≠ "." ∧ w ≠ ".."

instance (w : String) : Decidable (simpleComponent w) := by
  unfold simpleComponent; infer_instance

/-- Paths reachable from `root` by joining plain components and
appending slashes — never a `..` step, so never a location outside the
root directory. -/
inductive UnderRoot (root : String) : String → Prop where
  | base : UnderRoot root root
  | comp {p w} : UnderRoot root p → simpleComponent w →
      UnderRoot root (posix_join p w)
  | slash {p} : UnderRoot root p → UnderRoot root (p ++ "/")

lemma dirname_empty_no_slash {w : String} (h : posix_dirname w = "") :
    ∀ c ∈ w.data, c ≠ '/' := by
  intro c hc
  rintro rfl
  have hne : dirnameHead w.data ≠ [] := by
    unfold dirnameHead
    simp only [ne_eq, List.reverse_eq_nil_iff, List.dropWhile_eq_nil_iff]
    intro hnil
    have := hnil '/' (by simpa using hc)
    simp at this
  unfold posix_dirname at h
  by_cases hany : (dirnameHead w.data).any (fun c => c ≠ '/') = true
  · rw [if_pos ⟨hne, hany⟩] at h
    have hnil : ((dirnameHead w.data).reverse.dropWhile
        (fun c => c = '/')).reverse = [] := by
      have := congrArg String.data h
      simpa using this
    rw [List.reverse_eq_nil_iff, List.dropWhile_eq_nil_iff] at hnil
    obtain ⟨x, hx, hxne⟩ := List.any_eq_true.mp hany
    have := hnil x (List.mem_reverse.mpr hx)
    simp_all
  · rw [if_neg (fun hcond => hany hcond.2)] at h
    have : dirnameHead w.data = [] := by
      have := congrArg String.data h
      simpa using this
    exact hne this

lemma simpleComponent_no_lead_slash {w : String}
    (h : simpleComponent w) : pyStartsWith w "/" = false := by
  obtain ⟨hne, hdir, -, -⟩ := h
  cases hw : w.data with
  | nil =>
    exact absurd (by cases w; simpa using congrArg String.mk hw) hne
  | cons c cs =>
    have hc := dirname_empty_no_slash hdir c (by simp [hw])
    simp [pyStartsWith, hw, List.isPrefixOf, hc, Ne.symm hc]

/-- Joining a simple component appends it after the current path
(possibly with a separator): the filesystem location only descends. -/
lemma posix_join_simple {p w : String} (h : simpleComponent w) :
    posix_join p w = p ++ w ∨ posix_join p w = p ++ "/" ++ w := by
  unfold posix_join
  rw [simpleComponent_no_lead_slash h]
  by_cases hc : (p = "" || pyEndsWith p "/") = true
  · rw [if_neg (by simp), if_pos hc]; exact Or.inl rfl
  · rw [if_neg (by simp), if_neg hc]; exact Or.inr rfl

/-- Any path under the root extends the root textually. -/
lemma underRoot_append {root p : String} (h : UnderRoot root p) :
    ∃ t : String, p = root ++ t := by
  induction h with
  | base => exact ⟨"", by simp⟩
  | @comp q w _ hw ih =>
    obtain ⟨t, ht⟩ := ih
    rcases posix_join_simple (p := q) hw with hj | hj
    · exact ⟨t ++ w, by rw [hj, ht, String.append_assoc]⟩
    · exact ⟨t ++ "/" ++ w, by rw [hj, ht]; simp [String.append_assoc]⟩
  | @slash q _ ih =>
    obtain ⟨t, ht⟩ := ih
    exact ⟨t ++ "/", by rw [ht, String.append_assoc]⟩

/-- The join loop of `translate_path` only descends below its seed. -/
lemma joinWords_underRoot {root : String} :
    ∀ (ws : List String) (p : String), UnderRoot root p →
      UnderRoot root (joinWords p ws) := by
  intro ws
  induction ws with
  | nil => intro p hp; simpa [joinWords] using hp
  | cons w ws ih =>
    intro p hp
    unfold joinWords
    by_cases h0 : w = ""
    · rw [if_pos h0]; exact ih p hp
    rw [if_neg h0]
    by_cases hg : (posix_dirname w ≠ "" || w = "." || w = "..") = true
    · rw [if_pos hg]; exact ih p hp
    · rw [if_neg hg]
      simp only [Bool.or_eq_true, not_or, Bool.not_eq_true] at hg
      obtain ⟨⟨h1, h2⟩, h3⟩ := hg
      refine ih _ (UnderRoot.comp hp ⟨h0, by simpa using h1, by simpa using h2,
        by simpa using h3⟩)

/-- `translate_path` never resolves outside the root directory. -/
lemma translate_path_underRoot (root urlPath : String) :
    UnderRoot root (translate_path root urlPath) := by
  unfold translate_path
  split
  · exact UnderRoot.slash (joinWords_underRoot _ root UnderRoot.base)
  · exact joinWords_underRoot _ root UnderRoot.base

/-! ### MIME type resolution

`wasm_server.py` line 13 runs `mimetypes.add_type('application/wasm',
'.wasm')`, so the global `types_map` contains the `.wasm` entry
(CPython 3.11's builtin table also ships it).  The handler's own
`extensions_map` in 3.11 holds only four encoding-related entries and
falls back to `mimetypes.guess_type`. -/

def handler_extensions_map : List (String × String) :=
  [(".gz", "application/gzip"), (".Z", "application/octet-stream"),
   (".bz2", "application/x-bzip2"), (".xz", "application/x-xz")]

def suffix_map : List (String × String) :=
  [(".svgz", ".svg.gz"), (".tgz", ".tar.gz"), (".taz", ".tar.gz"),
   (".tz", ".tar.gz"), (".tbz2", ".tar.bz2"), (".txz", ".tar.xz")]

def encodings_map : List (String × String) :=
  [(".gz", "gzip"), (".Z", "compress"), (".bz2", "bzip2"),
   (".xz", "xz"), (".br", "br")]

/-- The entries of `mimetypes.types_map[True]` relevant here: the
`.wasm` entry is guaranteed by the `add_type` call in wasm_server.py;
a few common builtin entries are included (the real table is larger
and platform-extended, which no claim depends on). -/
def types_map : List (String × String) :=
  [(".wasm", "application/wasm"), (".html", "text/html"),
   (".htm", "text/html"), (".js", "text/javascript"),
   (".css", "text/css"), (".json", "application/json"),
   (".png", "image/png"), (".jpg", "image/jpeg"),
   (".gif", "image/gif"), (".txt", "text/plain"),
   (".tar", "application/x-tar"),
   (".bin", "application/octet-stream")]

def lookupTable (m : List (String × String)) (k : String) : Option String :=
  (m.find? (fun e => e.1 = k)).map (fun e => e.2)

/-- `urllib.parse._splittype`: match `^([^/:]+):(.*)$`. -/
def splitTypeScheme? (url : String) : Option (String × String) :=
  match url.data.drop ((url.data.takeWhile (fun c => c ≠ '/' && c ≠ ':')).length) with
  | ':' :: rest =>
    if (url.data.takeWhile (fun c => c ≠ '/' && c ≠ ':')) ≠ [] then
      some (String.mk (url.data.takeWhile (fun c => c ≠ '/' && c ≠ ':')),
            String.mk rest)
    else none
  | _ => none

/-- The `while ext.lower() in suffix_map` loop of
`MimeTypes.guess_type`, with fuel (the fixed `suffix_map` makes the
loop terminate after at most two re-splits; the fuel is never
exhausted for it). -/
def stripSuffixes : Nat → String → String × String
  | 0, url => splitext url
  | fuel + 1, url =>
    match splitext url with
    | (base, ext) =>
      match lookupTable suffix_map (pyLower ext) with
      | some repl => stripSuffixes fuel (base ++ repl)
      | none => (base, ext)

/-- The `data:` URL branch of `MimeTypes.guess_type`. -/
def dataUrlType (rest : String) : Option String :=
  if rest.data.contains ',' then
    if ((rest.data.takeWhile (fun c => c ≠ ',')).takeWhile
          (fun c => c ≠ ';')).contains '=' ||
        !((rest.data.takeWhile (fun c => c ≠ ',')).takeWhile
          (fun c => c ≠ ';')).contains '/' then some "text/plain"
    else some (String.mk ((rest.data.takeWhile (fun c => c ≠ ',')).takeWhile
      (fun c => c ≠ ';')))
  else none

/-- `mimetypes.guess_type(url)[0]` with `strict=True`: scheme split,
`data:` URLs, suffix re-mapping, case-sensitive encoding suffix, then
case-insensitive lookup in `types_map`. -/
def mimetypes_guess_type (url : String) : Option String :=
  match splitTypeScheme? url with
  | some ("data", rest) => dataUrlType rest
  | some (_, rest) => mimetypes_guess_type_core rest
  | none => mimetypes_guess_type_core url
where
  mimetypes_guess_type_core (url : String) : Option String :=
    match stripSuffixes (url.length + 1) url with
    | (base, ext) =>
      match lookupTable encodings_map ext with
      | some _ => lookupTable types_map (pyLower (splitext base).2)
      | none => lookupTable types_map (pyLower ext)

/-- `SimpleHTTPRequestHandler.guess_type`: the handler table first
(case-sensitively, then lowercased), then `mimetypes.guess_type`, then
the generic binary type. -/
def guess_type (path : String) : String :=
  match lookupTable handler_extensions_map (splitext path).2 with
  | some t => t
  | none =>
    match lookupTable handler_extensions_map (pyLower (splitext path).2) with
    | some t => t
    | none =>
      match mimetypes_guess_type path with
      | some t => t
      | none => "application/octet-stream"

/-! ### BaseHTTPRequestHandler response machinery

The wire is modelled as a list of structured items; rendering a
`status`/`header`/`blank` item to its byte string
(`"%s %d %s\r\n"`, `"%s: %s\r\n"`, `b"\r\n"`) is a trivial
pretty-printing step that no claim depends on.  `Handler` carries the
per-request state of the Python instance; `log` collects the lines
`log_message` writes to `sys.stderr`. -/

inductive WireItem where
  | status (code : Nat) (message : String)
  | header (keyword value : String)
  | blank
  | body (bytes : List Nat)
deriving DecidableEq

structure Handler where
  requestVersion : String
  command : String
  path : String
  requestline : String
  hasIfModifiedSince : Bool
  hasIfNoneMatch : Bool
  imsTime : Option Int
  headersBuffer : List WireItem
  wfile : List WireItem
  log : List String
  closeConnection : Bool
deriving DecidableEq

/-- Environment-dependent strings: `version_string()`,
`date_time_string()` (with and without a timestamp argument),
`address_string()` and `log_date_time_string()`. -/
structure Env where
  serverString : String
  dateString : String
  fmtMtime : Int → String
  clientAddress : String
  logDate : String

/-- `BaseHTTPRequestHandler.protocol_version` (not overridden). -/
def protocolVersion : String := "HTTP/1.0"

/-- The entries of `BaseHTTPRequestHandler.responses` for the codes
this server can emit. -/
def responses : List (Nat × String × String) :=
  [(200, "OK", "Request fulfilled, document follows"),
   (301, "Moved Permanently", "Object moved permanently -- see URI list"),
   (304, "Not Modified", "Document has not changed since given time"),
   (400, "Bad Request", "Bad request syntax or unsupported method"),
   (404, "Not Found", "Nothing matches the given URI"),
   (414, "Request-URI Too Long", "URI is too long"),
   (501, "Not Implemented", "Server does not support this operation")]

def lookupResponse (code : Nat) : Option (String × String) :=
  (responses.find? (fun e => e.1 = code)).map (fun e => e.2)

/-- `"%s - - [%s] %s\n"` prefix of `log_message` (the control-character
escaping is not modelled; no claim string contains one). -/
def logLine (env : Env) (msg : String) : String :=
  env.clientAddress ++ " - - [" ++ env.logDate ++ "] " ++ msg ++ "\n"

def log_message (env : Env) (h : Handler) (msg : String) : Handler :=
  { h with log := h.log ++ [logLine env msg] }

def log_request (env : Env) (h : Handler) (code : Nat) : Handler :=
  log_message env h ("\x22" ++ h.requestline ++ "\x22 " ++ toString code ++ " -")

def log_error (env : Env) (h : Handler) (msg : String) : Handler :=
  log_message env h msg

/-- Default reason phrase: `self.responses[code][0]` if present, else
the empty string. -/
def responseMessage (code : Nat) : Option String → String
  | some m => m
  | none => match lookupResponse code with
    | some p => p.1
    | none => ""

def send_response_only (h : Handler) (code : Nat) (message : Option String) :
    Handler :=
  if h.requestVersion ≠ "HTTP/0.9" then
    { h with headersBuffer :=
        h.headersBuffer ++ [.status code (responseMessage code message)] }
  else h

def send_header (h : Handler) (keyword value : String) : Handler :=
  let h' :=
    if h.requestVersion ≠ "HTTP/0.9" then
      { h with headersBuffer := h.headersBuffer ++ [.header keyword value] }
    else h
  if pyLower keyword = "connection" then
    if pyLower value = "close" then { h' with closeConnection := true }
    else if pyLower value = "keep-alive" then { h' with closeConnection := false }
    else h'
  else h'

def flush_headers (h : Handler) : Handler :=
  { h with wfile := h.wfile ++ h.headersBuffer, headersBuffer := [] }

/-- `BaseHTTPRequestHandler.end_headers`. -/
def base_end_headers (h : Handler) : Handler :=
  if h.requestVersion ≠ "HTTP/0.9" then
    flush_headers { h with headersBuffer := h.headersBuffer ++ [.blank] }
  else h

/-- `WASMHandler.end_headers` (wasm_server.py lines 16-20): inject the
two cross-origin isolation headers, then the base behaviour.  Python's
dynamic dispatch routes every `self.end_headers()` call in the base
class to this override. -/
def end_headers (h : Handler) : Handler :=
  base_end_headers
    (send_header
      (send_header h "Cross-Origin-Embedder-Policy" "require-corp")
      "Cross-Origin-Opener-Policy" "same-origin")

def send_response (env : Env) (h : Handler) (code : Nat)
    (message : Option String) : Handler :=
  send_header
    (send_header
      (send_response_only (log_request env h code) code message)
      "Server" env.serverString)
    "Date" env.dateString

/-- `html.escape(s, quote=False)`. -/
def htmlEscape (s : String) : String :=
  String.mk ((s.data.map (fun c =>
    if c = '&' then "&amp;".data
    else if c = '<' then "&lt;".data
    else if c = '>' then "&gt;".data
    else [c])).flatten)

/-- UTF-8 bytes of a string (`s.encode('UTF-8', 'replace')`). -/
def strUtf8 (s : String) : List Nat :=
  s.toUTF8.toList.map (fun b => b.toNat)

def error_content_type : String := "text/html;charset=utf-8"

/-- `DEFAULT_ERROR_MESSAGE % ...` with HTML-escaped message/explain. -/
def errorBody (code : Nat) (message explain : String) : String :=
  "<!DOCTYPE HTML>\n<html lang=\x22en\x22>\n    <head>\n        <meta charset=\x22utf-8\x22>\n        <title>Error response</title>\n    </head>\n    <body>\n        <h1>Error response</h1>\n        <p>Error code: " ++
  toString code ++
  "</p>\n        <p>Message: " ++ htmlEscape message ++
  ".</p>\n        <p>Error code explanation: " ++ toString code ++ " - " ++
  htmlEscape explain ++
  ".</p>\n    </body>\n</html>\n"

/-- `BaseHTTPRequestHandler.send_error`: log, send the status and the
`Connection: close` header, attach the HTML body (with content headers)
except for 1xx/204/205/304, finalize headers, and write the body unless
the command was HEAD. -/
def send_error (env : Env) (h : Handler) (code : Nat)
    (message explain : Option String) : Handler :=
  let pair := match lookupResponse code with
    | some p => p
    | none => ("???", "???")
  let msg := message.getD pair.1
  let expl := explain.getD pair.2
  let h1 := log_error env h ("code " ++ toString code ++ ", message " ++ msg)
  let h2 := send_response env h1 code (some msg)
  let h3 := send_header h2 "Connection" "close"
  let bodyOpt : Option (List Nat) :=
    if 200 ≤ code ∧ code ≠ 204 ∧ code ≠ 205 ∧ code ≠ 304 then
      some (strUtf8 (errorBody code msg expl))
    else none
  let h4 := match bodyOpt with
    | some b =>
      send_header (send_header h3 "Content-Type" error_content_type)
        "Content-Length" (toString b.length)
    | none => h3
  let h5 := end_headers h4
  match bodyOpt with
  | some b => if h5.command ≠ "HEAD" then { h5 with wfile := h5.wfile ++ [.body b] } else h5
  | none => h5

/-! ### Filesystem model and SimpleHTTPRequestHandler file serving -/

inductive FSEntry where
  | file (bytes : List Nat) (mtime : Int) (readable : Bool)
  | dir (names : List String) (listable : Bool)
deriving DecidableEq

/-- The filesystem, keyed by paths without trailing slashes. -/
def Fs : Type := String → Option FSEntry

/-- Drop trailing slashes (keeping a bare `/` for an all-slash path):
POSIX `stat` treats `d/` like `d` for a directory `d`. -/
def stripSlashes (p : String) : String :=
  if (p.data.reverse.dropWhile (fun c => c = '/')) = [] && p.data ≠ [] then "/"
  else String.mk (p.data.reverse.dropWhile (fun c => c = '/')).reverse

/-- `os.path.isdir` (a trailing slash is accepted for directories). -/
def isdir (fs : Fs) (p : String) : Bool :=
  match fs (stripSlashes p) with
  | some (.dir _ _) => true
  | _ => false

/-- `os.path.isfile` (`f/` never names a regular file). -/
def isfile (fs : Fs) (p : String) : Bool :=
  if pyEndsWith p "/" then false
  else match fs p with
    | some (.file _ _ _) => true
    | _ => false

/-- `open(path, 'rb')` followed by `os.fstat`: the bytes and mtime, or
`None` when CPython raises `OSError` (missing file, permission denied,
or a directory). -/
def openFile (fs : Fs) (p : String) : Option (List Nat × Int) :=
  match fs p with
  | some (.file b m true) => some (b, m)
  | _ => none

/-- `%XX` with uppercase hex digits. -/
def toHexDigit (n : Nat) : Char :=
  if n < 10 then Char.ofNat ('0'.toNat + n) else Char.ofNat ('A'.toNat + n - 10)

/-- `urllib.parse.quote(s, errors='surrogatepass')` at code-point
level: unreserved characters and `/` pass through, the rest become
`%XX` (multi-byte UTF-8 percent-encoding is not modelled; no claim
depends on the listing body). -/
def urlQuote (s : String) : String :=
  String.mk ((s.data.map (fun c =>
    if ('a' ≤ c && c ≤ 'z') || ('A' ≤ c && c ≤ 'Z') || ('0' ≤ c && c ≤ '9')
        || c = '_' || c = '.' || c = '-' || c = '~' || c = '/' then [c]
    else ['%', toHexDigit (c.toNat / 16 % 16), toHexDigit (c.toNat % 16)])).flatten)

/-- Lexicographic order on code points. -/
def lexLt : List Char → List Char → Bool
  | [], [] => false
  | [], _ :: _ => true
  | _ :: _, [] => false
  | a :: as, b :: bs =>
    if a < b then true else if b < a then false else lexLt as bs

/-- Stable insert: a name moves ahead only of strictly greater keys. -/
def insertByLower (x : String) : List String → List String
  | [] => [x]
  | y :: ys =>
    if lexLt (pyLower x).data (pyLower y).data then x :: y :: ys
    else y :: insertByLower x ys

/-- `list.sort(key=lambda a: a.lower())`: a stable sort by lowercased
key (insertion sort; Python's sort is stable, so the result agrees). -/
def sortByLowerKey (names : List String) : List String :=
  names.foldl (fun acc n => insertByLower n acc) []

/-- The HTML page built by `list_directory`: names sorted by lowercase
key, percent-quoted links, escaped display names.  (The `/` and `@`
display suffixes for directories and symbolic links are not modelled;
no claim concerns the listing body.) -/
def renderListing (rawPath : String) (names : List String) : String :=
  String.intercalate "\n"
    (["<!DOCTYPE HTML>", "<html lang=\x22en\x22>", "<head>",
      "<meta charset=\x22utf-8\x22>",
      "<title>Directory listing for " ++
        htmlEscape (String.mk (unquoteChars rawPath.data)) ++ "</title>\n</head>",
      "<body>\n<h1>Directory listing for " ++
        htmlEscape (String.mk (unquoteChars rawPath.data)) ++ "</h1>",
      "<hr>\n<ul>"] ++
     ((sortByLowerKey names).map
       (fun name => "<li><a href=\x22" ++ urlQuote name ++ "\x22>" ++
         htmlEscape name ++ "</a></li>")) ++
     ["</ul>\n<hr>\n</body>\n</html>\n"])

/-- `SimpleHTTPRequestHandler.list_directory`: `os.listdir` failure
becomes a 404, otherwise a 200 HTML listing. -/
def list_directory (env : Env) (fs : Fs) (p : String) (h : Handler) :
    Handler × Option (List Nat) :=
  match fs (stripSlashes p) with
  | some (.dir names true) =>
    (end_headers
      (send_header
        (send_header (send_response env h 200 none)
          "Content-type" "text/html; charset=utf-8")
        "Content-Length" (toString (strUtf8 (renderListing h.path names)).length)),
     some (strUtf8 (renderListing h.path names)))
  | _ => (send_error env h 404 (some "No permission to list directory") none, none)

/-- The tail of `send_head` once the path to serve is fixed: the
trailing-slash 404 guard, `open`, the `If-Modified-Since` check (the
parsed header time against the file's whole-second mtime), then the
200 header block.  (`ctype = self.guess_type(path)` is evaluated
before the guard in the source; it is pure, and is inlined at its use
here.) -/
def serveFilePath (env : Env) (fs : Fs) (path : String) (h : Handler) :
    Handler × Option (List Nat) :=
  if pyEndsWith path "/" then
    (send_error env h 404 (some "File not found") none, none)
  else
    match openFile fs path with
    | none => (send_error env h 404 (some "File not found") none, none)
    | some (bytes, mtime) =>
      if h.hasIfModifiedSince && !h.hasIfNoneMatch &&
          (match h.imsTime with
           | some ims => decide (mtime ≤ ims)
           | none => false) then
        (end_headers (send_response env h 304 none), none)
      else
        (end_headers
          (send_header
            (send_header
              (send_header (send_response env h 200 none)
                "Content-type" (guess_type path))
              "Content-Length" (toString bytes.length))
            "Last-Modified" (env.fmtMtime mtime)),
         some bytes)

/-- The redirect target of the directory branch:
`urlunsplit` of the split URL with `/` appended to its path. -/
def redirectUrl (p : String) : String :=
  urlsplitPath p ++ "/" ++ String.mk (p.data.drop (urlsplitPath p).data.length)

/-- `SimpleHTTPRequestHandler.send_head`. -/
def send_head (env : Env) (fs : Fs) (root : String) (h : Handler) :
    Handler × Option (List Nat) :=
  if isdir fs (translate_path root h.path) then
    if !pyEndsWith (urlsplitPath h.path) "/" then
      (end_headers
        (send_header
          (send_header (send_response env h 301 none)
            "Location" (redirectUrl h.path))
          "Content-Length" "0"),
       none)
    else if isfile fs (posix_join (translate_path root h.path) "index.html") then
      serveFilePath env fs (posix_join (translate_path root h.path) "index.html") h
    else if isfile fs (posix_join (translate_path root h.path) "index.htm") then
      serveFilePath env fs (posix_join (translate_path root h.path) "index.htm") h
    else
      list_directory env fs (translate_path root h.path) h
  else
    serveFilePath env fs (translate_path root h.path) h

/-- `do_GET`: send head and headers, then copy the file bytes to the
socket (`copyfile` / `shutil.copyfileobj`). -/
def do_GET (env : Env) (fs : Fs) (root : String) (h : Handler) : Handler :=
  match send_head env fs root h with
  | (h1, some b) => { h1 with wfile := h1.wfile ++ [.body b] }
  | (h1, none) => h1

/-- `do_HEAD`: headers only. -/
def do_HEAD (env : Env) (fs : Fs) (root : String) (h : Handler) : Handler :=
  (send_head env fs root h).1

/-- The method dispatch of `handle_one_request` after a successful
parse: `do_GET`, `do_HEAD`, or 501 for any other command. -/
def dispatch (env : Env) (fs : Fs) (root : String) (h : Handler) : Handler :=
  if h.command = "GET" then do_GET env fs root h
  else if h.command = "HEAD" then do_HEAD env fs root h
  else send_error env h 501
    (some ("Unsupported method (\x27" ++ h.command ++ "\x27)")) none

/-! ### One request, one connection, the accept loop -/

/-- The outcome of reading and parsing one request line, as classified
by `handle_one_request` / `parse_request`:
* `request`: a parsed request (`request_version` is `"HTTP/0.9"` for a
  two-word `GET` line);
* `badRequestLine`: `parse_request` already sent a 400/505-style error
  (carrying the code, message, and the `request_version` in effect);
* `uriTooLong`: a request line over 65536 bytes, answered with 414
  with `request_version` set to the empty string;
* `emptyLine`: the client closed the connection — no response at all. -/
inductive ReqEvent where
  | request (command path version requestline : String)
      (hasIMS hasINM : Bool) (ims : Option Int)
  | badRequestLine (requestline version : String) (code : Nat) (msg : String)
  | uriTooLong
  | emptyLine
deriving DecidableEq

/-- The per-request handler state as initialized for one request. -/
def mkHandler (cmd path ver reqline : String) (ims inm : Bool)
    (t : Option Int) : Handler :=
  { requestVersion := ver, command := cmd, path := path,
    requestline := reqline, hasIfModifiedSince := ims,
    hasIfNoneMatch := inm, imsTime := t, headersBuffer := [],
    wfile := [], log := [], closeConnection := true }

/-- `BaseHTTPRequestHandler.handle_one_request`. -/
def handleOneRequest (env : Env) (fs : Fs) (root : String) :
    ReqEvent → Handler
  | .emptyLine => mkHandler "" "" "" "" false false none
  | .uriTooLong =>
    send_error env (mkHandler "" "" "" "" false false none) 414 none none
  | .badRequestLine reqline ver code msg =>
    send_error env (mkHandler "" "" ver reqline false false none) code (some msg) none
  | .request cmd path ver reqline ims inm t =>
    dispatch env fs root (mkHandler cmd path ver reqline ims inm t)

/-- One accepted connection.  `protocol_version` is `HTTP/1.0`, so
`close_connection` stays true and a connection carries one request.
`broken` is a socket-level failure (e.g. the client reset the
connection), which makes `process_request` raise `OSError`. -/
inductive Conn where
  | talk (ev : ReqEvent)
  | broken (msg : String)
deriving DecidableEq

/-- The `handle_error` output (traceback printed to `sys.stderr`),
modelled as one stderr chunk. -/
def connErrorTrace (msg : String) : String :=
  "----------------------------------------\n" ++
  "Exception occurred during processing of request\n" ++
  "OSError: " ++ msg ++ "\n" ++
  "----------------------------------------\n"

/-- `BaseServer._handle_request_noblock`: `process_request` inside
`try/except Exception`, where the except branch calls `handle_error`
and `shutdown_request` and the loop continues.  Result: the bytes
written to the connection and the stderr lines. -/
def handleConnection (env : Env) (fs : Fs) (root : String) :
    Conn → List WireItem × List String
  | .talk ev =>
    ((handleOneRequest env fs root ev).wfile,
     (handleOneRequest env fs root ev).log)
  | .broken msg => ([], [connErrorTrace msg])

/-- `serve_forever` over a finite schedule of accepted connections. -/
def serve_forever (env : Env) (fs : Fs) (root : String)
    (conns : List Conn) : List (List WireItem × List String) :=
  conns.map (handleConnection env fs root)

/-! ### The whole process and its side effects -/

inductive Effect where
  | stdoutWrite (s : String)
  | stderrWrite (s : String)
  | netWrite (w : WireItem)
  | fsWrite (path : String) (bytes : List Nat)
deriving DecidableEq

/-- `print(f"🌐 Serving at http://localhost:\x7bport\x7d")` -/
def startupLine1 (port : Int) : String :=
  "🌐 Serving at http://localhost:" ++ toString port

/-- The second startup `print`. -/
def startupLine2 : String :=
  "📦 WASM files will be served with proper application/wasm MIME type"

/-- Effects of one connection: the request-log lines go to stderr when
the response headers are assembled, before the buffered bytes reach
the socket. -/
def connEffects (r : List WireItem × List String) : List Effect :=
  r.2.map .stderrWrite ++ r.1.map .netWrite

/-- The whole process: parse argv, bind, print the two startup lines,
serve.  An uncaught startup exception prints its message to stderr and
the process exits with status 1 (`startup` above gives the exit
status); the filesystem is only ever read. -/
def run (env : Env) (net : NetEnv) (argv : List String) (fs : Fs)
    (root : String) (conns : List Conn) : List Effect :=
  match parsePort argv with
  | .error e => [.stderrWrite (excMessage e)]
  | .ok port =>
    match socketBind net port with
    | .error e => [.stderrWrite (excMessage e)]
    | .ok () =>
      [.stdoutWrite (startupLine1 port), .stdoutWrite startupLine2] ++
      ((serve_forever env fs root conns).map connEffects).flatten

/-! ### Projection lemmas for the response pipeline -/

@[simp] lemma send_header_wfile (h : Handler) (k v : String) :
    (send_header h k v).wfile = h.wfile := by
  unfold send_header
  repeat' split
  all_goals rfl

@[simp] lemma send_header_requestVersion (h : Handler) (k v : String) :
    (send_header h k v).requestVersion = h.requestVersion := by
  unfold send_header
  repeat' split
  all_goals rfl

@[simp] lemma send_header_command (h : Handler) (k v : String) :
    (send_header h k v).command = h.command := by
  unfold send_header
  repeat' split
  all_goals rfl

@[simp] lemma send_header_log (h : Handler) (k v : String) :
    (send_header h k v).log = h.log := by
  unfold send_header
  repeat' split
  all_goals rfl

lemma send_header_headersBuffer {h : Handler} (k v : String)
    (hv : h.requestVersion ≠ "HTTP/0.9") :
    (send_header h k v).headersBuffer = h.headersBuffer ++ [.header k v] := by
  unfold send_header
  rw [if_pos hv]
  repeat' split
  all_goals rfl

@[simp] lemma send_response_only_wfile (h : Handler) (code : Nat)
    (m : Option String) : (send_response_only h code m).wfile = h.wfile := by
  unfold send_response_only; split <;> rfl

@[simp] lemma send_response_only_requestVersion (h : Handler) (code : Nat)
    (m : Option String) :
    (send_response_only h code m).requestVersion = h.requestVersion := by
  unfold send_response_only; split <;> rfl

@[simp] lemma send_response_only_command (h : Handler) (code : Nat)
    (m : Option String) :
    (send_response_only h code m).command = h.command := by
  unfold send_response_only; split <;> rfl

@[simp] lemma send_response_only_log (h : Handler) (code : Nat)
    (m : Option String) : (send_response_only h code m).log = h.log := by
  unfold send_response_only; split <;> rfl

@[simp] lemma log_message_wfile (env : Env) (h : Handler) (m : String) :
    (log_message env h m).wfile = h.wfile := rfl

@[simp] lemma log_message_requestVersion (env : Env) (h : Handler) (m : String) :
    (log_message env h m).requestVersion = h.requestVersion := rfl

@[simp] lemma log_message_command (env : Env) (h : Handler) (m : String) :
    (log_message env h m).command = h.command := rfl

@[simp] lemma log_message_headersBuffer (env : Env) (h : Handler) (m : String) :
    (log_message env h m).headersBuffer = h.headersBuffer := rfl

@[simp] lemma log_request_wfile (env : Env) (h : Handler) (c : Nat) :
    (log_request env h c).wfile = h.wfile := rfl

@[simp] lemma log_request_requestVersion (env : Env) (h : Handler) (c : Nat) :
    (log_request env h c).requestVersion = h.requestVersion := rfl

@[simp] lemma log_request_command (env : Env) (h : Handler) (c : Nat) :
    (log_request env h c).command = h.command := rfl

@[simp] lemma log_request_headersBuffer (env : Env) (h : Handler) (c : Nat) :
    (log_request env h c).headersBuffer = h.headersBuffer := rfl

@[simp] lemma log_error_wfile (env : Env) (h : Handler) (m : String) :
    (log_error env h m).wfile = h.wfile := rfl

@[simp] lemma log_error_requestVersion (env : Env) (h : Handler) (m : String) :
    (log_error env h m).requestVersion = h.requestVersion := rfl

@[simp] lemma log_error_command (env : Env) (h : Handler) (m : String) :
    (log_error env h m).command = h.command := rfl

@[simp] lemma log_error_headersBuffer (env : Env) (h : Handler) (m : String) :
    (log_error env h m).headersBuffer = h.headersBuffer := rfl

@[simp] lemma send_response_wfile (env : Env) (h : Handler) (code : Nat)
    (m : Option String) : (send_response env h code m).wfile = h.wfile := by
  unfold send_response; simp

@[simp] lemma send_response_requestVersion (env : Env) (h : Handler)
    (code : Nat) (m : Option String) :
    (send_response env h code m).requestVersion = h.requestVersion := by
  unfold send_response; simp

@[simp] lemma send_response_command (env : Env) (h : Handler) (code : Nat)
    (m : Option String) :
    (send_response env h code m).command = h.command := by
  unfold send_response; simp

@[simp] lemma base_end_headers_requestVersion (h : Handler) :
    (base_end_headers h).requestVersion = h.requestVersion := by
  unfold base_end_headers flush_headers; split <;> rfl

@[simp] lemma base_end_headers_command (h : Handler) :
    (base_end_headers h).command = h.command := by
  unfold base_end_headers flush_headers; split <;> rfl

@[simp] lemma end_headers_requestVersion (h : Handler) :
    (end_headers h).requestVersion = h.requestVersion := by
  unfold end_headers; simp

@[simp] lemma end_headers_command (h : Handler) :
    (end_headers h).command = h.command := by
  unfold end_headers; simp

/-- With a header block present (`request_version ≠ "HTTP/0.9"`), the
overridden `end_headers` flushes the buffered headers followed by the
two cross-origin headers and the blank line. -/
lemma end_headers_wfile {h : Handler} (hv : h.requestVersion ≠ "HTTP/0.9") :
    (end_headers h).wfile = h.wfile ++ h.headersBuffer ++
      [.header "Cross-Origin-Embedder-Policy" "require-corp",
       .header "Cross-Origin-Opener-Policy" "same-origin", .blank] := by
  unfold end_headers base_end_headers flush_headers
  have h1 := send_header_headersBuffer (h := h)
    "Cross-Origin-Embedder-Policy" "require-corp" hv
  have h2 := send_header_headersBuffer
    (h := send_header h "Cross-Origin-Embedder-Policy" "require-corp")
    "Cross-Origin-Opener-Policy" "same-origin" (by simpa using hv)
  rw [if_pos (by simpa using hv)]
  simp [h1, h2]

lemma mem_end_headers_coep {h : Handler}
    (hv : h.requestVersion ≠ "HTTP/0.9") :
    WireItem.header "Cross-Origin-Embedder-Policy" "require-corp" ∈
      (end_headers h).wfile := by
  rw [end_headers_wfile hv]; simp

lemma mem_end_headers_coop {h : Handler}
    (hv : h.requestVersion ≠ "HTTP/0.9") :
    WireItem.header "Cross-Origin-Opener-Policy" "same-origin" ∈
      (end_headers h).wfile := by
  rw [end_headers_wfile hv]; simp

lemma send_response_only_headersBuffer {h : Handler} (code : Nat)
    (m : Option String) (hv : h.requestVersion ≠ "HTTP/0.9") :
    (send_response_only h code m).headersBuffer =
      h.headersBuffer ++ [.status code (responseMessage code m)] := by
  unfold send_response_only
  rw [if_pos hv]

lemma send_response_headersBuffer (env : Env) {h : Handler} (code : Nat)
    (m : Option String) (hv : h.requestVersion ≠ "HTTP/0.9") :
    (send_response env h code m).headersBuffer =
      h.headersBuffer ++
        [.status code (responseMessage code m),
         .header "Server" env.serverString, .header "Date" env.dateString] := by
  unfold send_response
  rw [send_header_headersBuffer _ _ (by simpa using hv),
    send_header_headersBuffer _ _ (by simpa using hv),
    send_response_only_headersBuffer _ _ (by simpa using hv)]
  simp

/-- Every `send_error` response carries the two cross-origin headers
(when a header block exists at all). -/
lemma send_error_mem_co (env : Env) {h : Handler} (code : Nat)
    (m e : Option String) (hv : h.requestVersion ≠ "HTTP/0.9") :
    WireItem.header "Cross-Origin-Embedder-Policy" "require-corp" ∈
      (send_error env h code m e).wfile ∧
    WireItem.header "Cross-Origin-Opener-Policy" "same-origin" ∈
      (send_error env h code m e).wfile := by
  have key : ∀ h4 : Handler, h4.requestVersion = h.requestVersion →
      WireItem.header "Cross-Origin-Embedder-Policy" "require-corp" ∈
        (end_headers h4).wfile ∧
      WireItem.header "Cross-Origin-Opener-Policy" "same-origin" ∈
        (end_headers h4).wfile :=
    fun h4 hh =>
      ⟨mem_end_headers_coep (by rw [hh]; exact hv),
       mem_end_headers_coop (by rw [hh]; exact hv)⟩
  simp only [send_error]
  by_cases hb : 200 ≤ code ∧ code ≠ 204 ∧ code ≠ 205 ∧ code ≠ 304
  · rw [if_pos hb]
    dsimp only
    split
    · exact ⟨List.mem_append_left _ (key _ (by simp)).1,
        List.mem_append_left _ (key _ (by simp)).2⟩
    · exact ⟨(key _ (by simp)).1, (key _ (by simp)).2⟩
  · rw [if_neg hb]
    dsimp only
    exact ⟨(key _ (by simp)).1, (key _ (by simp)).2⟩

lemma serveFilePath_mem_co (env : Env) (fs : Fs) (path : String)
    {h : Handler} (hv : h.requestVersion ≠ "HTTP/0.9") :
    WireItem.header "Cross-Origin-Embedder-Policy" "require-corp" ∈
      (serveFilePath env fs path h).1.wfile ∧
    WireItem.header "Cross-Origin-Opener-Policy" "same-origin" ∈
      (serveFilePath env fs path h).1.wfile := by
  unfold serveFilePath
  split
  · dsimp only
    exact send_error_mem_co env 404 (some "File not found") none hv
  · split
    · dsimp only
      exact send_error_mem_co env 404 (some "File not found") none hv
    · split
      · dsimp only
        refine ⟨mem_end_headers_coep ?_, mem_end_headers_coop ?_⟩ <;>
        · simp only [send_response_requestVersion]
          exact hv
      · dsimp only
        refine ⟨mem_end_headers_coep ?_, mem_end_headers_coop ?_⟩ <;>
        · simp only [send_header_requestVersion, send_response_requestVersion]
          exact hv

lemma list_directory_mem_co (env : Env) (fs : Fs) (p : String)
    {h : Handler} (hv : h.requestVersion ≠ "HTTP/0.9") :
    WireItem.header "Cross-Origin-Embedder-Policy" "require-corp" ∈
      (list_directory env fs p h).1.wfile ∧
    WireItem.header "Cross-Origin-Opener-Policy" "same-origin" ∈
      (list_directory env fs p h).1.wfile := by
  unfold list_directory
  split
  · dsimp only
    refine ⟨mem_end_headers_coep ?_, mem_end_headers_coop ?_⟩ <;>
    · simp only [send_header_requestVersion, send_response_requestVersion]
      exact hv
  · dsimp only
    exact send_error_mem_co env 404 (some "No permission to list directory") none hv

lemma send_head_mem_co (env : Env) (fs : Fs) (root : String)
    {h : Handler} (hv : h.requestVersion ≠ "HTTP/0.9") :
    WireItem.header "Cross-Origin-Embedder-Policy" "require-corp" ∈
      (send_head env fs root h).1.wfile ∧
    WireItem.header "Cross-Origin-Opener-Policy" "same-origin" ∈
      (send_head env fs root h).1.wfile := by
  unfold send_head
  split
  · split
    · dsimp only
      refine ⟨mem_end_headers_coep ?_, mem_end_headers_coop ?_⟩ <;>
      · simp only [send_header_requestVersion, send_response_requestVersion]
        exact hv
    · split
      · exact serveFilePath_mem_co env fs _ hv
      · split
        · exact serveFilePath_mem_co env fs _ hv
        · exact list_directory_mem_co env fs _ hv
  · exact serveFilePath_mem_co env fs _ hv

lemma do_GET_mem_co (env : Env) (fs : Fs) (root : String)
    {h : Handler} (hv : h.requestVersion ≠ "HTTP/0.9") :
    WireItem.header "Cross-Origin-Embedder-Policy" "require-corp" ∈
      (do_GET env fs root h).wfile ∧
    WireItem.header "Cross-Origin-Opener-Policy" "same-origin" ∈
      (do_GET env fs root h).wfile := by
  have base := send_head_mem_co env fs root hv
  unfold do_GET
  split
  · next h1 b heq =>
    rw [heq] at base
    exact ⟨List.mem_append_left _ base.1, List.mem_append_left _ base.2⟩
  · next h1 heq =>
    rw [heq] at base
    exact base

lemma dispatch_mem_co (env : Env) (fs : Fs) (root : String)
    {h : Handler} (hv : h.requestVersion ≠ "HTTP/0.9") :
    WireItem.header "Cross-Origin-Embedder-Policy" "require-corp" ∈
      (dispatch env fs root h).wfile ∧
    WireItem.header "Cross-Origin-Opener-Policy" "same-origin" ∈
      (dispatch env fs root h).wfile := by
  unfold dispatch
  split
  · exact do_GET_mem_co env fs root hv
  · split
    · exact send_head_mem_co env fs root hv
    · exact send_error_mem_co env 501
        (some ("Unsupported method (\x27" ++ h.command ++ "\x27)")) none hv

/-- The request version governing an event's response, `none` when no
response is produced at all. -/
def evVersion? : ReqEvent → Option String
  | .request _ _ v _ _ _ _ => some v
  | .badRequestLine _ v _ _ => some v
  | .uriTooLong => some ""
  | .emptyLine => none

/-! ### Concrete example scenario (shared by witnesses) -/

def envXmpl : Env :=
  { serverString := "SimpleHTTP/0.6 Python/3.11.6",
    dateString := "Sun, 12 Oct 2025 12:00:00 GMT",
    fmtMtime := fun _ => "Sun, 12 Oct 2025 11:00:00 GMT",
    clientAddress := "127.0.0.1",
    logDate := "12/Oct/2025 12:00:00" }

def fsXmpl : Fs := fun p =>
  if p = "/srv" then some (.dir ["module.wasm", "index.html", "sub", "noread.txt"] true)
  else if p = "/srv/module.wasm" then some (.file [0, 97, 115, 109, 1, 2, 3] 100 true)
  else if p = "/srv/module.WASM" then some (.file [0, 97, 115, 109] 100 true)
  else if p = "/srv/index.html" then some (.file [104, 105] 90 true)
  else if p = "/srv/sub" then some (.dir [] true)
  else if p = "/srv/noread.txt" then some (.file [120] 80 false)
  else none

/-! ### Claim C1 -/

/-- C1 (amended): for every HTTP response the server produces to a
request whose request version is not `HTTP/0.9` — regardless of path,
method, or status (200, 301, 304, 404, directory listing, or any error
status) — the response's header block contains both
`Cross-Origin-Embedder-Policy: require-corp` and
`Cross-Origin-Opener-Policy: same-origin`, added before the block is
finalized.  (For an HTTP/0.9 simple request, `send_header` and
`end_headers` emit nothing, so the response has no header block at
all; see the counterexample.) -/
theorem every_response_has_cross_origin_headers
    (env : Env) (fs : Fs) (root : String) (ev : ReqEvent) (v : String)
    (hev : evVersion? ev = some v) (hv : v ≠ "HTTP/0.9") :
    WireItem.header "Cross-Origin-Embedder-Policy" "require-corp" ∈
      (handleOneRequest env fs root ev).wfile ∧
    WireItem.header "Cross-Origin-Opener-Policy" "same-origin" ∈
      (handleOneRequest env fs root ev).wfile := by
  cases ev with
  | emptyLine => simp [evVersion?] at hev
  | uriTooLong =>
    have hv0 : v = "" := by simpa [evVersion?] using hev.symm
    dsimp only [handleOneRequest]
    exact send_error_mem_co env 414 none none (by decide)
  | badRequestLine reqline ver code msg =>
    have hv0 : ver = v := by simpa [evVersion?] using hev
    dsimp only [handleOneRequest]
    exact send_error_mem_co env code (some msg) none
      (by dsimp only [mkHandler]; rw [hv0]; exact hv)
  | request cmd path ver reqline ims inm t =>
    have hv0 : ver = v := by simpa [evVersion?] using hev
    dsimp only [handleOneRequest]
    exact dispatch_mem_co env fs root
      (by dsimp only [mkHandler]; rw [hv0]; exact hv)

/-- Witness for C1's theorem at a concrete HTTP/1.1 request. -/
theorem every_response_has_cross_origin_headers_witness :
    WireItem.header "Cross-Origin-Embedder-Policy" "require-corp" ∈
      (handleOneRequest envXmpl fsXmpl "/srv"
        (.request "GET" "/module.wasm" "HTTP/1.1"
          "GET /module.wasm HTTP/1.1" false false none)).wfile ∧
    WireItem.header "Cross-Origin-Opener-Policy" "same-origin" ∈
      (handleOneRequest envXmpl fsXmpl "/srv"
        (.request "GET" "/module.wasm" "HTTP/1.1"
          "GET /module.wasm HTTP/1.1" false false none)).wfile :=
  every_response_has_cross_origin_headers envXmpl fsXmpl "/srv"
    (.request "GET" "/module.wasm" "HTTP/1.1"
      "GET /module.wasm HTTP/1.1" false false none)
    "HTTP/1.1" rfl (by decide)

/-- C1 counterexample to the claim as stated: an HTTP/0.9 simple
request (`GET /module.wasm` with no version token) is answered with
the file body and no header block, so that response's headers do not
include the two cross-origin headers. -/
theorem http09_response_lacks_cross_origin_headers :
    (handleOneRequest envXmpl fsXmpl "/srv"
        (.request "GET" "/module.wasm" "HTTP/0.9"
          "GET /module.wasm" false false none)).wfile =
      [.body [0, 97, 115, 109, 1, 2, 3]] ∧
    WireItem.header "Cross-Origin-Embedder-Policy" "require-corp" ∉
      (handleOneRequest envXmpl fsXmpl "/srv"
        (.request "GET" "/module.wasm" "HTTP/0.9"
          "GET /module.wasm" false false none)).wfile ∧
    WireItem.header "Cross-Origin-Opener-Policy" "same-origin" ∉
      (handleOneRequest envXmpl fsXmpl "/srv"
        (.request "GET" "/module.wasm" "HTTP/0.9"
          "GET /module.wasm" false false none)).wfile := by
  refine ⟨by decide, by decide, by decide⟩

/-! ### Claims C5, C6, C9: CLI argument handling and startup -/

lemma string_append_ne_empty (a b : String) (ha : a.data ≠ []) :
    a ++ b ≠ "" := by
  intro hcon
  have hd := congrArg String.data hcon
  rw [String.data_append] at hd
  simp only [String.data] at hd
  exact ha (List.append_eq_nil.mp hd).1

/-- C5: invoked with no CLI argument the server serves on port 8000
(when the bind succeeds); invoked with an argument that `int` accepts
as `n`, it serves on port `n` instead. -/
theorem startup_port_selection :
    (∀ (env : NetEnv) (prog : String), socketBind env 8000 = .ok () →
      startup env [prog] = .serving 8000) ∧
    (∀ (env : NetEnv) (prog s : String) (n : Int), pyInt? s = some n →
      socketBind env n = .ok () → startup env [prog, s] = .serving n) := by
  constructor
  · intro env prog hb
    unfold startup parsePort
    dsimp only
    rw [hb]
  · intro env prog s n hs hb
    unfold startup parsePort
    dsimp only
    rw [hs]
    dsimp only
    rw [hb]

/-- Witness for C5 at concrete argv values. -/
theorem startup_port_selection_witness :
    startup ⟨[]⟩ ["wasm_server.py"] = .serving 8000 ∧
    startup ⟨[]⟩ ["wasm_server.py", "9999"] = .serving 9999 :=
  ⟨startup_port_selection.1 ⟨[]⟩ "wasm_server.py" rfl,
   startup_port_selection.2 ⟨[]⟩ "wasm_server.py" "9999" 9999 rfl rfl⟩

/-- C6: every startup failure is fatal with exit status 1 (≠ 0) and a
nonempty error message: a non-integer port argument makes `int` raise
(no silent default to 8000), and a bind failure (port in use, port out
of range) terminates the process. -/
theorem startup_failures_fatal :
    (∀ (env : NetEnv) (prog s : String), pyInt? s = none →
      ∃ msg, startup env [prog, s] = .exited 1 msg ∧ msg ≠ "") ∧
    (∀ (env : NetEnv) (argv : List String) (port : Int) (e : PyExn),
      parsePort argv = .ok port → socketBind env port = .error e →
      startup env argv = .exited 1 (excMessage e) ∧ excMessage e ≠ "") := by
  constructor
  · intro env prog s hs
    refine ⟨excMessage (.valueError
      ("invalid literal for int() with base 10: " ++ s)), ?_, ?_⟩
    · unfold startup parsePort
      dsimp only
      rw [hs]
    · exact string_append_ne_empty _ _ (by decide)
  · intro env argv port e hp hb
    constructor
    · unfold startup
      rw [hp]
      dsimp only
      rw [hb]
    · cases e <;> exact string_append_ne_empty _ _ (by decide)

/-- Witness for C6: a non-integer argument and a port already in use. -/
theorem startup_failures_fatal_witness :
    (∃ msg, startup ⟨[]⟩ ["wasm_server.py", "abc"] = .exited 1 msg ∧
      msg ≠ "") ∧
    startup ⟨[8000]⟩ ["wasm_server.py"] =
      .exited 1 (excMessage (.osError "[Errno 98] Address already in use")) ∧
    excMessage (.osError "[Errno 98] Address already in use") ≠ "" :=
  ⟨startup_failures_fatal.1 ⟨[]⟩ "wasm_server.py" "abc" rfl,
   startup_failures_fatal.2 ⟨[8000]⟩ ["wasm_server.py"] 8000
     (.osError "[Errno 98] Address already in use") rfl rfl⟩

/-- C9: the port argument has Python `int` semantics — surrounding
whitespace, a leading sign, and underscore digit separators are
accepted (` 8000 `, `+8000`, `8_000` all mean port 8000), non-literals
(`abc`, `8.5`, misplaced underscores) raise, and out-of-range values
(`70000`, `-1`) pass argument parsing and fail only at `socket.bind`
with `OverflowError`. -/
theorem port_argument_python_int_semantics :
    pyInt? " 8000 " = some 8000 ∧ pyInt? "+8000" = some 8000 ∧
    pyInt? "8_000" = some 8000 ∧ pyInt? "abc" = none ∧
    pyInt? "8.5" = none ∧ pyInt? "8__0" = none ∧ pyInt? "_8" = none ∧
    parsePort ["wasm_server.py", "70000"] = .ok 70000 ∧
    parsePort ["wasm_server.py", "-1"] = .ok (-1) ∧
    startup ⟨[]⟩ ["wasm_server.py", "70000"] =
      .exited 1 "OverflowError: bind(): port must be 0-65535." ∧
    startup ⟨[]⟩ ["wasm_server.py", "-1"] =
      .exited 1 "OverflowError: bind(): port must be 0-65535." ∧
    startup ⟨[]⟩ ["wasm_server.py", " 8000 "] = .serving 8000 := by
  decide

/-! ### Claim C3: no escape from the root directory -/

/-- The filesystem locations a request can make the handler read:
paths under the root (`translate_path` results and the `index.html` /
`index.htm` probes below them) and their trailing-slash-stripped forms
(for `os.path.isdir` / `os.listdir`). -/
def UnderRootRead (root p : String) : Prop :=
  ∃ q, UnderRoot root q ∧ (p = q ∨ p = stripSlashes q)

lemma list_eq_dropTrailing_append (l : List Char) (f : Char → Bool) :
    l = (l.reverse.dropWhile f).reverse ++ (l.reverse.takeWhile f).reverse := by
  conv_lhs => rw [← l.reverse_reverse,
    ← List.takeWhile_append_dropWhile (p := f) (l := l.reverse)]
  rw [List.reverse_append]

/-- Stripping trailing slashes only shortens a path from the right. -/
lemma stripSlashes_data_prefix (p : String) :
    ∃ u, p.data = (stripSlashes p).data ++ u := by
  unfold stripSlashes
  split
  · next hcond =>
    simp only [Bool.and_eq_true, decide_eq_true_eq, ne_eq] at hcond
    obtain ⟨h1, h2⟩ := hcond
    have hall : ∀ c ∈ p.data, c = '/' := by
      intro c hc
      have := (List.dropWhile_eq_nil_iff.mp h1) c (List.mem_reverse.mpr hc)
      simpa using this
    cases hd : p.data with
    | nil => exact absurd hd (by simpa using h2)
    | cons c cs =>
      have hc : c = '/' := hall c (by rw [hd]; exact List.mem_cons_self c cs)
      exact ⟨cs, by rw [hc]; rfl⟩
  · exact ⟨(p.data.reverse.takeWhile (fun c => c = '/')).reverse, by
      conv_lhs => rw [list_eq_dropTrailing_append p.data (fun c => c = '/')]⟩

/-- The response to a GET depends only on the filesystem at locations
under the root: two filesystems that agree there are answered
identically, whatever lies outside the root. -/
lemma do_GET_fs_congr (env : Env) (fs₁ fs₂ : Fs) (root : String)
    (h : Handler) (hag : ∀ p, UnderRootRead root p → fs₁ p = fs₂ p) :
    do_GET env fs₁ root h = do_GET env fs₂ root h := by
  have under := translate_path_underRoot root h.path
  have e1 : fs₁ (stripSlashes (translate_path root h.path)) =
      fs₂ (stripSlashes (translate_path root h.path)) :=
    hag _ ⟨_, under, Or.inr rfl⟩
  have e2 : fs₁ (posix_join (translate_path root h.path) "index.html") =
      fs₂ (posix_join (translate_path root h.path) "index.html") :=
    hag _ ⟨_, under.comp (by decide), Or.inl rfl⟩
  have e3 : fs₁ (posix_join (translate_path root h.path) "index.htm") =
      fs₂ (posix_join (translate_path root h.path) "index.htm") :=
    hag _ ⟨_, under.comp (by decide), Or.inl rfl⟩
  have e4 : fs₁ (translate_path root h.path) =
      fs₂ (translate_path root h.path) :=
    hag _ ⟨_, under, Or.inl rfl⟩
  simp only [do_GET, send_head, serveFilePath, list_directory, isdir,
    isfile, openFile, e1, e2, e3, e4]

/-- C3: path traversal cannot escape the root.  (1) For every
requested URL path, the resolved filesystem path is reached from the
root directory purely by appending plain components (never `..`, `.`,
or anything containing a slash) and slashes, and in particular extends
the root textually.  (2) The response to any GET request is unchanged
by arbitrary modifications of the filesystem outside those under-root
locations, so file contents outside the root are never returned. -/
theorem path_traversal_confined :
    (∀ root urlPath : String,
      UnderRoot root (translate_path root urlPath) ∧
      ∃ t, translate_path root urlPath = root ++ t) ∧
    (∀ (env : Env) (fs₁ fs₂ : Fs) (root : String) (h : Handler),
      (∀ p, UnderRootRead root p → fs₁ p = fs₂ p) →
      do_GET env fs₁ root h = do_GET env fs₂ root h) :=
  ⟨fun root urlPath =>
    ⟨translate_path_underRoot root urlPath,
     underRoot_append (translate_path_underRoot root urlPath)⟩,
   do_GET_fs_congr⟩

/-- A filesystem that also contains a secret outside the root. -/
def fsOutside : Fs := fun p =>
  if p = "/etc/passwd" then some (.file [115, 51, 99, 114, 51, 116] 0 true)
  else fsXmpl p

/-- Witness for C3: a `GET /../../../etc/passwd` request is answered
identically whether or not `/etc/passwd` exists, with root `/srv`. -/
theorem path_traversal_confined_witness :
    do_GET envXmpl fsXmpl "/srv"
      (mkHandler "GET" "/../../../etc/passwd" "HTTP/1.1"
        "GET /../../../etc/passwd HTTP/1.1" false false none) =
    do_GET envXmpl fsOutside "/srv"
      (mkHandler "GET" "/../../../etc/passwd" "HTTP/1.1"
        "GET /../../../etc/passwd HTTP/1.1" false false none) :=
  path_traversal_confined.2 envXmpl fsXmpl fsOutside "/srv"
    (mkHandler "GET" "/../../../etc/passwd" "HTTP/1.1"
      "GET /../../../etc/passwd HTTP/1.1" false false none)
    (by
      intro p hp
      obtain ⟨q, hq, hpq⟩ := hp
      obtain ⟨t, ht⟩ := underRoot_append hq
      have hqd : q.data = ['/', 's', 'r', 'v'] ++ t.data := by
        rw [ht, String.data_append]
      have hne : p ≠ "/etc/passwd" := by
        rcases hpq with rfl | rfl
        · intro hcon
          rw [hcon] at hqd
          have : ("/etc/passwd").data =
              ['/', 'e', 't', 'c', '/', 'p', 'a', 's', 's', 'w', 'd'] := rfl
          rw [this] at hqd
          simp at hqd
        · intro hcon
          obtain ⟨u, hu⟩ := stripSlashes_data_prefix q
          rw [hcon] at hu
          have : ("/etc/passwd").data =
              ['/', 'e', 't', 'c', '/', 'p', 'a', 's', 's', 'w', 'd'] := rfl
          rw [this] at hu
          rw [hqd] at hu
          simp at hu
      show fsXmpl p = fsOutside p
      unfold fsOutside
      rw [if_neg hne])

/-! ### Claim C4: 404 for missing or unreadable paths -/

lemma mem_end_headers_of_mem_buffer {h : Handler} {x : WireItem}
    (hv : h.requestVersion ≠ "HTTP/0.9") (hx : x ∈ h.headersBuffer) :
    x ∈ (end_headers h).wfile := by
  rw [end_headers_wfile hv]
  simp [hx]

lemma mem_send_header_headersBuffer (k v : String) {h : Handler}
    {x : WireItem} (hx : x ∈ h.headersBuffer) :
    x ∈ (send_header h k v).headersBuffer := by
  unfold send_header
  repeat' split
  all_goals simp_all

lemma mem_status_send_response (env : Env) {h : Handler} (code : Nat)
    (m : Option String) (hv : h.requestVersion ≠ "HTTP/0.9") :
    WireItem.status code (responseMessage code m) ∈
      (send_response env h code m).headersBuffer := by
  rw [send_response_headersBuffer env code m hv]
  simp

/-- `send_error` with an explicit message puts
`status code message` on the wire. -/
lemma send_error_mem_status (env : Env) {h : Handler} (code : Nat)
    (msg : String) (e : Option String)
    (hv : h.requestVersion ≠ "HTTP/0.9") :
    WireItem.status code msg ∈
      (send_error env h code (some msg) e).wfile := by
  simp only [send_error]
  by_cases hb : 200 ≤ code ∧ code ≠ 204 ∧ code ≠ 205 ∧ code ≠ 304
  · rw [if_pos hb]
    dsimp only
    split
    · refine List.mem_append_left _ (mem_end_headers_of_mem_buffer
        (by simp only [send_header_requestVersion,
          send_response_requestVersion, log_error_requestVersion]; exact hv)
        ?_)
      exact mem_send_header_headersBuffer _ _
        (mem_send_header_headersBuffer _ _
          (mem_send_header_headersBuffer _ _
            (mem_status_send_response env code (some msg)
              (by simp only [log_error_requestVersion]; exact hv))))
    · refine mem_end_headers_of_mem_buffer
        (by simp only [send_header_requestVersion,
          send_response_requestVersion, log_error_requestVersion]; exact hv)
        ?_
      exact mem_send_header_headersBuffer _ _
        (mem_send_header_headersBuffer _ _
          (mem_send_header_headersBuffer _ _
            (mem_status_send_response env code (some msg)
              (by simp only [log_error_requestVersion]; exact hv))))
  · rw [if_neg hb]
    dsimp only
    refine mem_end_headers_of_mem_buffer
      (by simp only [send_header_requestVersion,
        send_response_requestVersion, log_error_requestVersion]; exact hv) ?_
    exact mem_send_header_headersBuffer _ _
      (mem_status_send_response env code (some msg)
        (by simp only [log_error_requestVersion]; exact hv))

lemma serveFilePath_404 (env : Env) (fs : Fs) (path : String)
    {h : Handler} (hv : h.requestVersion ≠ "HTTP/0.9")
    (hopen : openFile fs path = none) :
    WireItem.status 404 "File not found" ∈
      (serveFilePath env fs path h).1.wfile := by
  unfold serveFilePath
  split
  · dsimp only
    exact send_error_mem_status env 404 "File not found" none hv
  · rw [hopen]
    dsimp only
    exact send_error_mem_status env 404 "File not found" none hv

lemma send_head_404 (env : Env) (fs : Fs) (root : String)
    {h : Handler} (hv : h.requestVersion ≠ "HTTP/0.9")
    (hdir : isdir fs (translate_path root h.path) = false)
    (hopen : openFile fs (translate_path root h.path) = none) :
    WireItem.status 404 "File not found" ∈
      (send_head env fs root h).1.wfile := by
  unfold send_head
  rw [if_neg (by simp [hdir])]
  exact serveFilePath_404 env fs _ hv hopen

lemma do_GET_404 (env : Env) (fs : Fs) (root : String)
    {h : Handler} (hv : h.requestVersion ≠ "HTTP/0.9")
    (hdir : isdir fs (translate_path root h.path) = false)
    (hopen : openFile fs (translate_path root h.path) = none) :
    WireItem.status 404 "File not found" ∈ (do_GET env fs root h).wfile := by
  have base := send_head_404 env fs root hv hdir hopen
  unfold do_GET
  split
  · next h1 b heq =>
    rw [heq] at base
    exact List.mem_append_left _ base
  · next h1 heq =>
    rw [heq] at base
    exact base

/-- C4: a GET or HEAD request whose URL path resolves to a filesystem
location that does not exist, or is a regular file that is not
readable, is answered with HTTP status 404 (`File not found`). -/
theorem nonexistent_or_unreadable_path_404
    (env : Env) (fs : Fs) (root cmd path ver reqline : String)
    (ims inm : Bool) (t : Option Int)
    (hcmd : cmd = "GET" ∨ cmd = "HEAD") (hv : ver ≠ "HTTP/0.9")
    (hmiss : fs (translate_path root path) = none ∨
      ∃ b m, fs (translate_path root path) = some (.file b m false))
    (hdir : isdir fs (translate_path root path) = false) :
    WireItem.status 404 "File not found" ∈
      (handleOneRequest env fs root
        (.request cmd path ver reqline ims inm t)).wfile := by
  have hopen : openFile fs (translate_path root path) = none := by
    rcases hmiss with hm | ⟨b, m, hm⟩ <;> unfold openFile <;> rw [hm]
  dsimp only [handleOneRequest]
  unfold dispatch
  rcases hcmd with rfl | rfl
  · dsimp only [mkHandler]
    rw [if_pos rfl]
    exact do_GET_404 env fs root hv hdir hopen
  · dsimp only [mkHandler]
    rw [if_neg (by decide), if_pos rfl]
    exact send_head_404 env fs root hv hdir hopen

/-- Witness for C4: `GET /missing.bin` against the example tree. -/
theorem nonexistent_or_unreadable_path_404_witness :
    WireItem.status 404 "File not found" ∈
      (handleOneRequest envXmpl fsXmpl "/srv"
        (.request "GET" "/missing.bin" "HTTP/1.1"
          "GET /missing.bin HTTP/1.1" false false none)).wfile :=
  nonexistent_or_unreadable_path_404 envXmpl fsXmpl "/srv" "GET"
    "/missing.bin" "HTTP/1.1" "GET /missing.bin HTTP/1.1" false false none
    (Or.inl rfl) (by decide) (Or.inl (by decide)) (by decide)

/-! ### Claims C2 and C10: `.wasm` content type and exact file bytes -/

lemma splitTypeScheme?_of_abs {p : String} (hp : p.data.head? = some '/') :
    splitTypeScheme? p = none := by
  unfold splitTypeScheme?
  cases hd : p.data with
  | nil => rw [hd] at hp; simp at hp
  | cons c cs =>
    rw [hd] at hp
    have hc : c = '/' := by simpa using hp
    subst hc
    simp

lemma stripSuffixes_wasm {p : String}
    (hl : pyLower (splitext p).2 = ".wasm") :
    ∀ fuel, stripSuffixes (fuel + 1) p = splitext p := by
  intro fuel
  unfold stripSuffixes
  cases hsp : splitext p with
  | mk base ext =>
    dsimp only
    rw [show pyLower ext = ".wasm" by rw [← hl, hsp],
      show lookupTable suffix_map ".wasm" = none from by decide]

/-- Any path whose extension lowercases to `.wasm` (and that does not
look like a URL with a scheme) gets content type `application/wasm`:
the handler table misses, and the `mimetypes` lookup lowercases the
extension before consulting the table that `add_type` populated. -/
lemma guess_type_wasm {p : String}
    (hl : pyLower (splitext p).2 = ".wasm")
    (hsch : splitTypeScheme? p = none) :
    guess_type p = "application/wasm" := by
  have hne : ∀ k : String, pyLower k ≠ ".wasm" → (splitext p).2 ≠ k := by
    intro k hk hcon
    exact hk (by rw [← hcon]; exact hl)
  have htab : ∀ (m : List (String × String)),
      (∀ e ∈ m, e.1 ≠ (splitext p).2) → lookupTable m (splitext p).2 = none := by
    intro m hm
    unfold lookupTable
    rw [List.find?_eq_none.mpr (fun x hx => by simpa using hm x hx)]
    rfl
  have h1 : lookupTable handler_extensions_map (splitext p).2 = none := by
    refine htab _ ?_
    intro e he
    simp only [handler_extensions_map, List.mem_cons, List.not_mem_nil,
      or_false] at he
    rcases he with rfl | rfl | rfl | rfl <;>
      exact (hne _ (by decide)).symm
  have h2 : lookupTable handler_extensions_map (pyLower (splitext p).2) =
      none := by
    rw [hl]; decide
  have h3 : lookupTable encodings_map (splitext p).2 = none := by
    refine htab _ ?_
    intro e he
    simp only [encodings_map, List.mem_cons, List.not_mem_nil,
      or_false] at he
    rcases he with rfl | rfl | rfl | rfl | rfl <;>
      exact (hne _ (by decide)).symm
  have hmime : mimetypes_guess_type p = some "application/wasm" := by
    unfold mimetypes_guess_type
    rw [hsch]
    unfold mimetypes_guess_type.mimetypes_guess_type_core
    rw [stripSuffixes_wasm hl p.length]
    cases hsp : splitext p with
    | mk base ext =>
      have hx : ext = (splitext p).2 := by rw [hsp]
      dsimp only
      rw [show lookupTable encodings_map ext = none by rw [hx]; exact h3,
        show pyLower ext = ".wasm" by rw [hx]; exact hl]
      show lookupTable types_map ".wasm" = some "application/wasm"
      decide
  unfold guess_type
  rw [h1, h2, hmime]

/-- The 200 branch of `serveFilePath`: an existing readable file served
by an unconditional request produces the standard header block and the
file's bytes. -/
lemma serveFilePath_200 (env : Env) (fs : Fs) (path : String)
    {h : Handler} (bytes : List Nat) (mtime : Int)
    (hslash : pyEndsWith path "/" = false)
    (hopen : openFile fs path = some (bytes, mtime))
    (hims : h.hasIfModifiedSince = false) :
    serveFilePath env fs path h =
      (end_headers
        (send_header
          (send_header
            (send_header (send_response env h 200 none)
              "Content-type" (guess_type path))
            "Content-Length" (toString bytes.length))
          "Last-Modified" (env.fmtMtime mtime)),
       some bytes) := by
  unfold serveFilePath
  rw [if_neg (by simp [hslash]), hopen]
  dsimp only
  rw [if_neg (by simp [hims])]

lemma stripSlashes_of_no_trailing {p : String}
    (hp : pyEndsWith p "/" = false) : stripSlashes p = p := by
  unfold pyEndsWith at hp
  unfold stripSlashes
  cases hd : p.data.reverse with
  | nil =>
    have hdata : p.data = [] := by simpa using congrArg List.reverse hd
    rw [if_neg (by simp [hdata])]
    cases p
    simp_all
  | cons c cs =>
    have hc : c ≠ '/' := by
      intro hcon
      subst hcon
      unfold List.isSuffixOf at hp
      rw [hd] at hp
      simp [List.isPrefixOf] at hp
    rw [List.dropWhile_cons_of_neg (by simpa using hc)]
    rw [if_neg (by
      intro hcon
      simp only [Bool.and_eq_true, decide_eq_true_eq] at hcon
      exact (List.cons_ne_nil c cs) hcon.1)]
    rw [← hd, List.reverse_reverse]

/-- C2: a GET request (HTTP/1.x, unconditional) for a path that
resolves to an existing readable regular file with extension `.wasm`
is answered with status 200, `Content-type: application/wasm`,
`Content-Length` equal to the byte count, and a body that is exactly
the file's bytes.  The root is the process working directory, an
absolute path. -/
theorem wasm_file_served_200
    (env : Env) (fs : Fs) (root path ver reqline : String)
    (bytes : List Nat) (mtime : Int)
    (hv : ver ≠ "HTTP/0.9")
    (habs : (root.data.head? = some '/'))
    (hfile : fs (translate_path root path) = some (.file bytes mtime true))
    (hext : (splitext (translate_path root path)).2 = ".wasm")
    (hslash : pyEndsWith (translate_path root path) "/" = false) :
    (handleOneRequest env fs root
      (.request "GET" path ver reqline false false none)).wfile =
      [.status 200 "OK", .header "Server" env.serverString,
       .header "Date" env.dateString,
       .header "Content-type" "application/wasm",
       .header "Content-Length" (toString bytes.length),
       .header "Last-Modified" (env.fmtMtime mtime),
       .header "Cross-Origin-Embedder-Policy" "require-corp",
       .header "Cross-Origin-Opener-Policy" "same-origin",
       .blank, .body bytes] := by
  have htp : (translate_path root path).data.head? = some '/' := by
    obtain ⟨t, ht⟩ := underRoot_append (translate_path_underRoot root path)
    rw [ht, String.data_append]
    cases hr : root.data with
    | nil => rw [hr] at habs; simp at habs
    | cons c cs =>
      rw [hr] at habs
      simp only [List.head?_cons, Option.some.injEq] at habs
      simp [habs]
  have hguess : guess_type (translate_path root path) = "application/wasm" :=
    guess_type_wasm (by rw [hext]; decide) (splitTypeScheme?_of_abs htp)
  have hopen : openFile fs (translate_path root path) =
      some (bytes, mtime) := by
    unfold openFile; rw [hfile]
  have hdir : isdir fs (translate_path root path) = false := by
    unfold isdir
    rw [stripSlashes_of_no_trailing hslash, hfile]
  dsimp only [handleOneRequest]
  unfold dispatch
  rw [if_pos (show ((mkHandler "GET" path ver reqline false false
    none) : Handler).command = "GET" from rfl)]
  unfold do_GET
  rw [show send_head env fs root
      (mkHandler "GET" path ver reqline false false none) =
      (end_headers
        (send_header
          (send_header
            (send_header (send_response env
              (mkHandler "GET" path ver reqline false false none) 200 none)
              "Content-type"
              (guess_type (translate_path root path)))
            "Content-Length" (toString bytes.length))
          "Last-Modified" (env.fmtMtime mtime)),
       some bytes) from by
    unfold send_head
    rw [if_neg (by simp [mkHandler, hdir])]
    exact serveFilePath_200 env fs _ bytes mtime hslash hopen rfl]
  dsimp only
  have hv1 : ((mkHandler "GET" path ver reqline false false
      none) : Handler).requestVersion ≠ "HTTP/0.9" := by
    dsimp only [mkHandler]; exact hv
  rw [end_headers_wfile (by
    simp only [send_header_requestVersion, send_response_requestVersion]
    exact hv1)]
  rw [send_header_headersBuffer _ _ (by
      simp only [send_header_requestVersion, send_response_requestVersion]
      exact hv1),
    send_header_headersBuffer _ _ (by
      simp only [send_header_requestVersion, send_response_requestVersion]
      exact hv1),
    send_header_headersBuffer _ _ (by
      simp only [send_response_requestVersion]
      exact hv1),
    send_response_headersBuffer env 200 none hv1]
  rw [hguess]
  simp [mkHandler, responseMessage, lookupResponse, responses]

/-- Witness for C2: `GET /module.wasm` against the example tree. -/
theorem wasm_file_served_200_witness :
    (handleOneRequest envXmpl fsXmpl "/srv"
      (.request "GET" "/module.wasm" "HTTP/1.1"
        "GET /module.wasm HTTP/1.1" false false none)).wfile =
      [.status 200 "OK", .header "Server" envXmpl.serverString,
       .header "Date" envXmpl.dateString,
       .header "Content-type" "application/wasm",
       .header "Content-Length" (toString ([0, 97, 115, 109, 1, 2,
         3] : List Nat).length),
       .header "Last-Modified" (envXmpl.fmtMtime 100),
       .header "Cross-Origin-Embedder-Policy" "require-corp",
       .header "Cross-Origin-Opener-Policy" "same-origin",
       .blank, .body [0, 97, 115, 109, 1, 2, 3]] :=
  wasm_file_served_200 envXmpl fsXmpl "/srv" "/module.wasm" "HTTP/1.1"
    "GET /module.wasm HTTP/1.1" [0, 97, 115, 109, 1, 2, 3] 100
    (by decide) (by decide) (by decide) (by decide) (by decide)

/-- C10: the `.wasm` content-type mapping matches on the lowercased
extension: any filename whose extension lowercases to `.wasm`
(`.WASM`, `.Wasm`, ...) is served with
`Content-type: application/wasm` — generally, and concretely for a
`GET /module.WASM` request and for `.WASM`/`.Wasm` paths. -/
theorem uppercase_wasm_extension_served_as_wasm :
    (∀ p : String, pyLower (splitext p).2 = ".wasm" →
      splitTypeScheme? p = none → guess_type p = "application/wasm") ∧
    WireItem.header "Content-type" "application/wasm" ∈
      (handleOneRequest envXmpl fsXmpl "/srv"
        (.request "GET" "/module.WASM" "HTTP/1.1"
          "GET /module.WASM HTTP/1.1" false false none)).wfile ∧
    guess_type "/srv/module.WASM" = "application/wasm" ∧
    guess_type "/srv/module.Wasm" = "application/wasm" :=
  ⟨fun _ h1 h2 => guess_type_wasm h1 h2, by decide, by decide, by decide⟩

/-- Witness for C10's general clause at the extension `.WASM`. -/
theorem uppercase_wasm_extension_served_as_wasm_witness :
    guess_type "module.WASM" = "application/wasm" :=
  uppercase_wasm_extension_served_as_wasm.1 "module.WASM"
    (by decide) (by decide)

/-! ### Claim C7: per-request failures never stop the server -/

/-- C7: the accept loop survives every per-request and per-connection
failure.  (1) Every scheduled connection gets exactly one outcome;
(2,3) the outcomes of a batch are the concatenation of the outcomes of
its parts, and each connection's outcome is computed independently of
the connections before it — so an error on one request leaves all
later requests served exactly as they would be alone; (4) a GET for a
missing file degrades to a 404 response on that connection (no
exception escapes); (5) a socket-level failure is caught by
`handle_error`: the traceback goes to stderr, no response is written,
and the loop continues. -/
theorem per_request_failure_isolated :
    (∀ (env : Env) (fs : Fs) (root : String) (conns : List Conn),
      (serve_forever env fs root conns).length = conns.length) ∧
    (∀ (env : Env) (fs : Fs) (root : String) (cs₁ cs₂ : List Conn),
      serve_forever env fs root (cs₁ ++ cs₂) =
        serve_forever env fs root cs₁ ++ serve_forever env fs root cs₂) ∧
    (∀ (env : Env) (fs : Fs) (root : String) (c : Conn) (rest : List Conn),
      serve_forever env fs root (c :: rest) =
        handleConnection env fs root c :: serve_forever env fs root rest) ∧
    (∀ (env : Env) (fs : Fs) (root path ver reqline : String)
       (ims inm : Bool) (t : Option Int),
      ver ≠ "HTTP/0.9" →
      isdir fs (translate_path root path) = false →
      openFile fs (translate_path root path) = none →
      WireItem.status 404 "File not found" ∈
        (handleConnection env fs root
          (.talk (.request "GET" path ver reqline ims inm t))).1) ∧
    (∀ (env : Env) (fs : Fs) (root msg : String),
      handleConnection env fs root (.broken msg) =
        ([], [connErrorTrace msg])) := by
  refine ⟨?_, ?_, ?_, ?_, ?_⟩
  · intro env fs root conns
    exact List.length_map conns _
  · intro env fs root cs₁ cs₂
    exact List.map_append _ cs₁ cs₂
  · intro env fs root c rest
    rfl
  · intro env fs root path ver reqline ims inm t hv hdir hopen
    dsimp only [handleConnection, handleOneRequest]
    unfold dispatch
    rw [if_pos (show ((mkHandler "GET" path ver reqline ims inm
      t) : Handler).command = "GET" from rfl)]
    exact do_GET_404 env fs root hv hdir hopen
  · intro env fs root msg
    rfl

/-- Witness for C7's hypotheses: a missing-file GET on a concrete
connection schedule. -/
theorem per_request_failure_isolated_witness :
    WireItem.status 404 "File not found" ∈
      (handleConnection envXmpl fsXmpl "/srv"
        (.talk (.request "GET" "/missing.bin" "HTTP/1.1"
          "GET /missing.bin HTTP/1.1" false false none))).1 :=
  per_request_failure_isolated.2.2.2.1 envXmpl fsXmpl "/srv"
    "/missing.bin" "HTTP/1.1" "GET /missing.bin HTTP/1.1" false false none
    (by decide) (by decide) (by decide)

/-! ### Claim C8: the process's side effects -/

/-- C8 counterexample to the claim as stated: handling a single
successful request also writes a request-log line to standard error
(`log_request` via `send_response` → `log_message` →
`sys.stderr.write`), an effect beyond socket writes and the two
startup stdout lines. -/
theorem run_writes_request_log_to_stderr :
    Effect.stderrWrite
        ("127.0.0.1 - - [12/Oct/2025 12:00:00] \x22GET /module.wasm HTTP/1.1\x22 200 -\n") ∈
      run envXmpl ⟨[]⟩ ["wasm_server.py"] fsXmpl "/srv"
        [.talk (.request "GET" "/module.wasm" "HTTP/1.1"
          "GET /module.wasm HTTP/1.1" false false none)] := by
  decide

/-- C8 (amended): the process's only side effects are writes to
network sockets, the two human-readable startup lines on standard
output, and log/traceback lines on standard error; it performs no
filesystem write whatsoever, and when startup succeeds the standard
output effects are exactly the two startup lines, in order, at the
front of the trace. -/
theorem run_effects_classified
    (env : Env) (net : NetEnv) (argv : List String) (fs : Fs)
    (root : String) (conns : List Conn) :
    (∀ e ∈ run env net argv fs root conns,
      (∃ s, e = Effect.stdoutWrite s) ∨ (∃ s, e = Effect.stderrWrite s) ∨
      (∃ w, e = Effect.netWrite w)) ∧
    (∀ (p : String) (bs : List Nat),
      Effect.fsWrite p bs ∉ run env net argv fs root conns) ∧
    (∀ port : Int, parsePort argv = .ok port →
      socketBind net port = .ok () →
      run env net argv fs root conns =
        Effect.stdoutWrite (startupLine1 port) ::
        Effect.stdoutWrite startupLine2 ::
        ((serve_forever env fs root conns).map connEffects).flatten ∧
      ∀ e ∈ ((serve_forever env fs root conns).map connEffects).flatten,
        (∃ s, e = Effect.stderrWrite s) ∨ ∃ w, e = Effect.netWrite w) := by
  have hshape : ∀ e ∈ ((serve_forever env fs root conns).map
      connEffects).flatten,
      (∃ s, e = Effect.stderrWrite s) ∨ ∃ w, e = Effect.netWrite w := by
    intro e he
    rw [List.mem_flatten] at he
    obtain ⟨l, hl, hel⟩ := he
    rw [List.mem_map] at hl
    obtain ⟨r, hr, rfl⟩ := hl
    unfold connEffects at hel
    rcases List.mem_append.mp hel with hm | hm
    · obtain ⟨s, hs, rfl⟩ := List.mem_map.mp hm
      exact Or.inl ⟨s, rfl⟩
    · obtain ⟨w, hw, rfl⟩ := List.mem_map.mp hm
      exact Or.inr ⟨w, rfl⟩
  refine ⟨?_, ?_, ?_⟩
  · intro e he
    unfold run at he
    rcases hpp : parsePort argv with epp | port
    · rw [hpp] at he
      simp only [List.mem_singleton] at he
      exact Or.inr (Or.inl ⟨_, he⟩)
    · rw [hpp] at he
      dsimp only at he
      rcases hbv : socketBind net port with ebv | u
      · rw [hbv] at he
        simp only [List.mem_singleton] at he
        exact Or.inr (Or.inl ⟨_, he⟩)
      · cases u
        rw [hbv] at he
        dsimp only at he
        rcases List.mem_append.mp he with hm | hm
        · simp only [List.mem_cons, List.not_mem_nil, or_false] at hm
          rcases hm with rfl | rfl
          · exact Or.inl ⟨_, rfl⟩
          · exact Or.inl ⟨_, rfl⟩
        · rcases hshape e hm with ⟨s, rfl⟩ | ⟨w, rfl⟩
          · exact Or.inr (Or.inl ⟨s, rfl⟩)
          · exact Or.inr (Or.inr ⟨w, rfl⟩)
  · intro p bs hcon
    unfold run at hcon
    rcases hpp : parsePort argv with epp | port
    · rw [hpp] at hcon
      simp at hcon
    · rw [hpp] at hcon
      dsimp only at hcon
      rcases hbv : socketBind net port with ebv | u
      · rw [hbv] at hcon
        simp at hcon
      · cases u
        rw [hbv] at hcon
        dsimp only at hcon
        rcases List.mem_append.mp hcon with hm | hm
        · simp at hm
        · rcases hshape _ hm with ⟨s, hs⟩ | ⟨w, hw⟩
          · simp at hs
          · simp at hw
  · intro port hpp hbv
    refine ⟨?_, hshape⟩
    unfold run
    rw [hpp]
    dsimp only
    rw [hbv]
    rfl

/-- Witness for C8's amended theorem: a concrete successful run. -/
theorem run_effects_classified_witness :
    run envXmpl ⟨[]⟩ ["wasm_server.py"] fsXmpl "/srv"
        [.talk (.request "GET" "/module.wasm" "HTTP/1.1"
          "GET /module.wasm HTTP/1.1" false false none)] =
      Effect.stdoutWrite (startupLine1 8000) ::
      Effect.stdoutWrite startupLine2 ::
      ((serve_forever envXmpl fsXmpl "/srv"
        [.talk (.request "GET" "/module.wasm" "HTTP/1.1"
          "GET /module.wasm HTTP/1.1" false false none)]).map
        connEffects).flatten :=
  ((run_effects_classified envXmpl ⟨[]⟩ ["wasm_server.py"] fsXmpl "/srv"
    [.talk (.request "GET" "/module.wasm" "HTTP/1.1"
      "GET /module.wasm HTTP/1.1" false false none)]).2.2 8000
    rfl rfl).1

end WasmServer
